import Mathlib

/-!
Shallow embedding of `src/XliffFileType.js` from ilib-loctool-xliff.

The file under verification is the `XliffFileType` plugin: it recognizes the
canonical aggregate xliff file, accumulates resources in three translation
sets (extracted, new, pseudo), and on `write` merges the new and pseudo sets
into the singleton `XliffFile`, persists it, and conditionally spawns the
external `xcodebuild` importer.

Collaborators of this class (`TranslationSet`, `XliffFile`, the `FileType`
parent constructor) live in sibling files of the same library that are not
part of the provided sources; their behavior is modelled from the
specification where noted.  The on-disk persist step (`XliffFile.write`) and
the external importer (`spawnSync`) are pure parameters of the embedded
`write`, so every theorem quantifies over all possible collaborator
behaviors.  `write` additionally returns an explicit trace of effects
(resource additions, the persist call, importer invocations) and a log
trace, mirroring the observable actions of the JavaScript code.
-/

/-- A localizable string resource record (collaborator data).  Only the
fields that the embedded code observes are carried; `reskey` is the field
the source logs. -/
structure LocResource where
  reskey : String
  source : String
  target : Option String
  locale : String
deriving DecidableEq

/-- Modelled from the spec: `TranslationSet` (src not included) is an
ordered collection of resource records with a dirty flag set on mutation;
iteration order is insertion order and adds use append semantics with no
dedup in this pipeline. -/
structure TranslationSet where
  resources : List LocResource
  dirty : Bool
deriving DecidableEq

/-- Modelled from the spec: `TranslationSet.getAll` returns the ordered
sequence of records in the set. -/
def TranslationSet.getAll (s : TranslationSet) : List LocResource :=
  s.resources

/-- Modelled from the spec: `TranslationSet.isDirty` reports the dirty
flag. -/
def TranslationSet.isDirty (s : TranslationSet) : Bool :=
  s.dirty

/-- Modelled from the spec: adding one record appends it in insertion order
and marks the set dirty. -/
def TranslationSet.add (s : TranslationSet) (r : LocResource) : TranslationSet :=
  { resources := s.resources ++ [r], dirty := true }

/-- Modelled from the spec: `TranslationSet.addSet` bulk-merges another set
with append semantics; the flag becomes dirty when anything was added. -/
def TranslationSet.addSet (s : TranslationSet) (other : TranslationSet) : TranslationSet :=
  { resources := s.resources ++ other.resources,
    dirty := s.dirty || !other.resources.isEmpty }

/-- The owning project, as observed by this plugin: `project.sourceLocale`
is passed to the `XliffFile` constructor and `project.options.id` is
logged. -/
structure LocProject where
  sourceLocale : String
  optionsId : String
deriving DecidableEq

/-- Modelled from the spec: `XliffFile` (src not included) wraps one path
on disk and one underlying `TranslationSet` that is the accumulation
target; it is constructed from a project, a path name and a source
locale. -/
structure XliffFile where
  project : LocProject
  pathName : String
  sourceLocale : String
  set : TranslationSet
deriving DecidableEq

/-- Modelled from the spec: the `XliffFile` constructor binds the given
path and locale and starts with an empty, clean underlying set. -/
def XliffFile.mk' (project : LocProject) (pathName : String) (sourceLocale : String) : XliffFile :=
  { project := project, pathName := pathName, sourceLocale := sourceLocale,
    set := { resources := [], dirty := false } }

/-- Modelled from the spec: `XliffFile.addResource` adds the record to the
underlying translation set. -/
def XliffFile.addResource (f : XliffFile) (r : LocResource) : XliffFile :=
  { f with set := f.set.add r }

/-- `XliffFile.getTranslationSet` returns the underlying set whose dirty
flag gates the import (spec section 6). -/
def XliffFile.getTranslationSet (f : XliffFile) : TranslationSet :=
  f.set

/-- The state of one `XliffFileType` plugin instance.  `file` is the
lazily created singleton resource file (`this.file`); `newres`, `pseudo`
and `extracted` are the three accumulation sets.  `type`, `files` and
`extensions` are set by the constructor in `src/XliffFileType.js`. -/
structure XliffFileType where
  project : LocProject
  type : String
  files : List String
  extensions : List String
  file : Option XliffFile
  newres : TranslationSet
  pseudo : TranslationSet
  extracted : TranslationSet
deriving DecidableEq

/-- The `XliffFileType` constructor (`src/XliffFileType.js` lines 36-42);
the three empty accumulation sets are modelled from the spec (the parent
`FileType` constructor is not in the provided sources, and the spec says
the sets are created once at plugin-instance construction). -/
def XliffFileType.init (project : LocProject) : XliffFileType :=
  { project := project, type := "xml", files := [], extensions := [".xliff"],
    file := none,
    newres := { resources := [], dirty := false },
    pseudo := { resources := [], dirty := false },
    extracted := { resources := [], dirty := false } }

/-- Splits a path string at every slash; empty segments are kept here and
dropped during normalization, matching how repeated separators collapse. -/
def pathSegments (p : String) : List String :=
  let step := fun (acc : List String × String) (c : Char) =>
    if c = '/' then (acc.1 ++ [acc.2], "") else (acc.1, acc.2.push c)
  let r := p.toList.foldl step ([], "")
  r.1 ++ [r.2]

/-- Segment resolution of Node posix path normalization: drops empty and
dot segments, resolves dot-dot against the accumulated segments, and keeps
leading dot-dot segments only for relative paths. -/
def normSegs (allowAboveRoot : Bool) : List String → List String → List String
  | acc, [] => acc.reverse
  | acc, seg :: rest =>
    if seg = "" || seg = "." then normSegs allowAboveRoot acc rest
    else if seg = ".." then
      match acc with
      | [] => normSegs allowAboveRoot (if allowAboveRoot then [".."] else []) rest
      | a :: tl =>
        if a = ".." then normSegs allowAboveRoot (".." :: a :: tl) rest
        else normSegs allowAboveRoot tl rest
    else normSegs allowAboveRoot (seg :: acc) rest

/-- Model of path.normalize from the Node path module (posix rules), the
external function used by `handles`: collapses separators, resolves dot
and dot-dot segments, and preserves a trailing separator. -/
def normalizePath (p : String) : String :=
  if p = "" then "."
  else
    let isAbs := p.toList.head? == some '/'
    let trailingSep := p.toList.getLast? == some '/'
    let segs := normSegs (!isAbs) [] (pathSegments p)
    let body := String.intercalate "/" segs
    if body = "" then
      if isAbs then "/" else if trailingSep then "./" else "."
    else
      (if isAbs then "/" ++ body else body) ++ (if trailingSep then "/" else "")

/-- `XliffFileType.handles` (`src/XliffFileType.js` lines 56-63): true iff
the normalized path equals the fixed canonical name; the instance state
(including the extensions list) is never consulted. -/
def XliffFileType.handles (_st : XliffFileType) (pathName : String) : Bool :=
  normalizePath pathName == "en-US.xliff"

/-- `XliffFileType.name` (lines 65-67). -/
def XliffFileType.name (_st : XliffFileType) : String :=
  "Xliff File Type"

/-- `XliffFileType.getExtensions` (lines 155-157). -/
def XliffFileType.getExtensions (st : XliffFileType) : List String :=
  st.extensions

/-- `XliffFileType.getExtracted` (lines 168-170). -/
def XliffFileType.getExtracted (st : XliffFileType) : TranslationSet :=
  st.extracted

/-- `XliffFileType.getNew` (lines 189-191). -/
def XliffFileType.getNew (st : XliffFileType) : TranslationSet :=
  st.newres

/-- `XliffFileType.getPseudo` (lines 200-202). -/
def XliffFileType.getPseudo (st : XliffFileType) : TranslationSet :=
  st.pseudo

/-- `XliffFileType.addSet` (lines 178-180): bulk-merge into the extracted
set only. -/
def XliffFileType.addSet (st : XliffFileType) (set : TranslationSet) : XliffFileType :=
  { st with extracted := st.extracted.addSet set }

/-- `XliffFileType.newFile` (lines 119-129): creates the singleton
`XliffFile` on first call, bound to that call path and the project source
locale; later calls return the stored singleton unchanged. -/
def XliffFileType.newFile (st : XliffFileType) (pathName : String) : XliffFile × XliffFileType :=
  match st.file with
  | none =>
    let f := XliffFile.mk' st.project pathName st.project.sourceLocale
    (f, { st with file := some f })
  | some f => (f, st)

/-- `XliffFileType.getResourceFile` (lines 137-139): returns `this.file`
and touches nothing. -/
def XliffFileType.getResourceFile (st : XliffFileType) : Option XliffFile × XliffFileType :=
  (st.file, st)

/-- `XliffFileType.getDataType` (lines 141-143); the parent field is not
in the provided sources, so the value is abstracted as the type name. -/
def XliffFileType.getDataType (st : XliffFileType) : String :=
  st.type

/-- Severity levels of the log4js logger used by the source. -/
inductive LogLevel where
  | trace
  | debug
  | info
  | warn
  | error
deriving DecidableEq

/-- One logger call: a severity and the message text. -/
structure LogEntry where
  level : LogLevel
  message : String
deriving DecidableEq

/-- The result record of a synchronous spawn of the external importer:
exit status and captured output streams (spawnSync result, as the source
reads it). -/
structure ProcStatus where
  status : Int
  stdout : Option String
  stderr : Option String
deriving DecidableEq

/-- Observable effects of one `write` invocation, in order. -/
inductive WriteEvent where
  | addResource (r : LocResource)
  | persist
  | importerCall (args : List String)
deriving DecidableEq

/-- The literal argument list passed to xcodebuild
(`src/XliffFileType.js` line 106). -/
def xcodebuildArgs : List String :=
  ["-importLocalizations", "-localizationPath", "./en.xliff", "-project", "feelgood.xcodeproj"]

/-- The file after the two merge loops of `write` (lines 84-96), before
persisting: every record of the new set, then every record of the pseudo
set, added one at a time in set-iteration order. -/
def XliffFileType.mergedFile (st : XliffFileType) (f : XliffFile) : XliffFile :=
  st.pseudo.getAll.foldl XliffFile.addResource (st.newres.getAll.foldl XliffFile.addResource f)

/-- The logger calls issued by `write` up to and including the line before
the persist call (lines 78-98). -/
def XliffFileType.mergeLog (st : XliffFileType) (f : XliffFile) : List LogEntry :=
  { level := LogLevel.trace, message := "Writing xliff files" } ::
  { level := LogLevel.trace,
    message := "There are " ++ toString st.newres.getAll.length ++ " resources to add." } ::
  (st.newres.getAll ++ st.pseudo.getAll).map (fun r =>
    { level := LogLevel.trace, message := "Added " ++ r.reskey ++ " to " ++ f.pathName }) ++
  [{ level := LogLevel.info, message := "Now writing out the ios xliff files" }]

/-- The logger calls issued inside the dirty branch of `write`
(lines 104-114): the announcement, the captured stdout if any, a warning
exactly when the exit status is non-zero, the captured stderr if any, and
the completion message. -/
def XliffFileType.importLog (st : XliffFileType) (procStatus : ProcStatus) : List LogEntry :=
  { level := LogLevel.info,
    message := "executing xcodebuild on the " ++ st.project.optionsId ++
      " project to import those translations. This may take a while..." } ::
  ((match procStatus.stdout with
    | some s => [{ level := LogLevel.info, message := s }]
    | none => []) ++
   (if procStatus.status ≠ 0 then
      [{ level := LogLevel.warn, message := "Execution failed: " }]
    else []) ++
   (match procStatus.stderr with
    | some s => [{ level := LogLevel.info, message := s }]
    | none => []) ++
   [{ level := LogLevel.info, message := "xcodebuild done" }])

/-- `XliffFileType.write` (`src/XliffFileType.js` lines 77-117).
`persistFile` is the external `XliffFile.write` collaborator (its effect
on the in-memory file, in particular on the dirty flag, is arbitrary);
`spawnImporter` is the external `spawnSync` of xcodebuild.  Returns the
new plugin state, the ordered effect trace, and the log trace. -/
def XliffFileType.write (st : XliffFileType) (persistFile : XliffFile → XliffFile)
    (spawnImporter : List String → ProcStatus) :
    XliffFileType × List WriteEvent × List LogEntry :=
  match st.file with
  | none => (st, [], [{ level := LogLevel.trace, message := "Writing xliff files" }])
  | some file =>
    let addEvents := (st.newres.getAll ++ st.pseudo.getAll).map WriteEvent.addResource
    let file3 := persistFile (st.mergedFile file)
    if (file3.getTranslationSet).isDirty then
      let procStatus := spawnImporter xcodebuildArgs
      ({ st with file := some file3 },
       addEvents ++ [WriteEvent.persist, WriteEvent.importerCall xcodebuildArgs],
       st.mergeLog file ++ st.importLog procStatus)
    else
      ({ st with file := some file3 }, addEvents ++ [WriteEvent.persist], st.mergeLog file)

/-- The resources recorded as added by an effect trace, in order. -/
def addedResources (evs : List WriteEvent) : List LocResource :=
  evs.filterMap fun e =>
    match e with
    | WriteEvent.addResource r => some r
    | _ => none

/-- The importer invocations recorded by an effect trace, in order. -/
def importerInvocations (evs : List WriteEvent) : List (List String) :=
  evs.filterMap fun e =>
    match e with
    | WriteEvent.importerCall a => some a
    | _ => none

/-- Number of persist calls recorded by an effect trace. -/
def persistCount (evs : List WriteEvent) : Nat :=
  evs.count WriteEvent.persist

/-- A concrete project used to evaluate the theorems on closed inputs. -/
def sampleProject : LocProject :=
  { sourceLocale := "en-US", optionsId := "feelgood" }

/-- A concrete resource record used to evaluate the theorems. -/
def sampleRes : LocResource :=
  { reskey := "app.title", source := "Title", target := none, locale := "en-US" }

/-- A second concrete resource record, used as a pseudo resource. -/
def samplePseudoRes : LocResource :=
  { reskey := "app.title", source := "Title", target := some "[Ťíťľé]", locale := "zxx-XX" }

/-- A third concrete record that only ever enters the extracted set. -/
def sampleExtractedRes : LocResource :=
  { reskey := "old.key", source := "Old", target := some "Alt", locale := "de-DE" }

/-- A concrete persist behavior that leaves the dirty flag raised. -/
def dirtyPersist : XliffFile → XliffFile :=
  fun f => { f with set := { resources := f.set.resources, dirty := true } }

/-- A concrete persist behavior that clears the dirty flag. -/
def cleanPersist : XliffFile → XliffFile :=
  fun f => { f with set := { resources := f.set.resources, dirty := false } }

/-- A concrete importer behavior that exits with status zero. -/
def okImporter : List String → ProcStatus :=
  fun _ => { status := 0, stdout := none, stderr := none }

/-- A concrete importer behavior that fails with status one and produces
output on both streams. -/
def failImporter : List String → ProcStatus :=
  fun _ => { status := 1, stdout := some "import out", stderr := some "import err" }

/-- A concrete plugin state after `newFile` has created the singleton. -/
def sampleState : XliffFileType :=
  ((XliffFileType.init sampleProject).newFile "en-US.xliff").2

/-- The singleton file created inside `sampleState`. -/
def sampleFile : XliffFile :=
  ((XliffFileType.init sampleProject).newFile "en-US.xliff").1

/-- `sampleState` after the host framework has added one new resource,
one pseudo resource and one extracted resource through the accessor
surfaces. -/
def sampleState2 : XliffFileType :=
  let st := sampleState
  let st := { st with newres := st.newres.add sampleRes }
  let st := { st with pseudo := st.pseudo.add samplePseudoRes }
  { st with extracted := st.extracted.add sampleExtractedRes }

/-! ## Helper lemmas -/

theorem foldl_addResource_resources (l : List LocResource) (f : XliffFile) :
    (l.foldl XliffFile.addResource f).set.resources = f.set.resources ++ l := by
  induction l generalizing f with
  | nil => simp
  | cons r t ih =>
    simp [List.foldl_cons, ih, XliffFile.addResource, TranslationSet.add, List.append_assoc]

theorem mergedFile_resources (st : XliffFileType) (f : XliffFile) :
    (st.mergedFile f).set.resources =
      f.set.resources ++ st.newres.getAll ++ st.pseudo.getAll := by
  simp [XliffFileType.mergedFile, foldl_addResource_resources, List.append_assoc]

theorem addedResources_append (a b : List WriteEvent) :
    addedResources (a ++ b) = addedResources a ++ addedResources b := by
  simp [addedResources, List.filterMap_append]

theorem addedResources_map_add (l : List LocResource) :
    addedResources (l.map WriteEvent.addResource) = l := by
  induction l with
  | nil => rfl
  | cons r t ih => simp only [List.map_cons, addedResources, List.filterMap_cons] at ih ⊢; simpa using ih

theorem importerInvocations_append (a b : List WriteEvent) :
    importerInvocations (a ++ b) = importerInvocations a ++ importerInvocations b := by
  simp [importerInvocations, List.filterMap_append]

theorem importerInvocations_map_add (l : List LocResource) :
    importerInvocations (l.map WriteEvent.addResource) = [] := by
  induction l with
  | nil => rfl
  | cons r t ih => simp only [List.map_cons, importerInvocations, List.filterMap_cons] at ih ⊢; simp [ih]

theorem persistCount_append (a b : List WriteEvent) :
    persistCount (a ++ b) = persistCount a + persistCount b := by
  simp [persistCount, List.count_append]

theorem persistCount_map_add (l : List LocResource) :
    persistCount (l.map WriteEvent.addResource) = 0 := by
  simp [persistCount, List.count_eq_zero, List.mem_map]

theorem XliffFileType.write_none (st : XliffFileType)
    (persistFile : XliffFile → XliffFile) (spawnImporter : List String → ProcStatus)
    (h : st.file = none) :
    st.write persistFile spawnImporter =
      (st, [], [{ level := LogLevel.trace, message := "Writing xliff files" }]) := by
  unfold XliffFileType.write
  rw [h]

theorem XliffFileType.write_some (st : XliffFileType) (f : XliffFile)
    (p : XliffFile → XliffFile) (i : List String → ProcStatus) (h : st.file = some f) :
    st.write p i =
      if ((p (st.mergedFile f)).getTranslationSet).isDirty then
        ({ st with file := some (p (st.mergedFile f)) },
         (st.newres.getAll ++ st.pseudo.getAll).map WriteEvent.addResource ++
           [WriteEvent.persist, WriteEvent.importerCall xcodebuildArgs],
         st.mergeLog f ++ st.importLog (i xcodebuildArgs))
      else
        ({ st with file := some (p (st.mergedFile f)) },
         (st.newres.getAll ++ st.pseudo.getAll).map WriteEvent.addResource ++
           [WriteEvent.persist],
         st.mergeLog f) := by
  unfold XliffFileType.write
  rw [h]

/-! ## Claim theorems -/

/-- C3: If `write` is called when no ResourceFile has been created (no
prior `newFile` call), it is a no-op: the state is unchanged, no resource
is added, no persist happens, the external importer is never invoked, and
nothing at warning or error severity is reported. -/
theorem xliff_write_noop_without_file (st : XliffFileType)
    (p : XliffFile → XliffFile) (i : List String → ProcStatus) (h : st.file = none) :
    st.write p i = (st, [], [{ level := LogLevel.trace, message := "Writing xliff files" }]) ∧
    addedResources (st.write p i).2.1 = [] ∧
    persistCount (st.write p i).2.1 = 0 ∧
    importerInvocations (st.write p i).2.1 = [] ∧
    ∀ e ∈ (st.write p i).2.2, e.level ≠ LogLevel.error ∧ e.level ≠ LogLevel.warn := by
  rw [XliffFileType.write_none st p i h]
  refine ⟨rfl, rfl, rfl, rfl, ?_⟩
  intro e he
  simp only [List.mem_singleton] at he
  subst he
  exact ⟨by simp, by simp⟩

/-- Witness for C3 at a concrete freshly constructed plugin state. -/
theorem xliff_write_noop_without_file_witness :
    (XliffFileType.init sampleProject).write cleanPersist okImporter =
      (XliffFileType.init sampleProject, [],
       [{ level := LogLevel.trace, message := "Writing xliff files" }]) :=
  (xliff_write_noop_without_file (XliffFileType.init sampleProject) cleanPersist okImporter rfl).1

/-- C5: `newFile` is idempotent in its returned object: the first call
constructs the singleton bound to that call path and the project source
locale; a second call with any other path returns the very same object and
leaves the state unchanged. -/
theorem xliff_newFile_idempotent_singleton (st : XliffFileType)
    (pA pB : String) (h : st.file = none) :
    ((st.newFile pA).2.newFile pB).1 = (st.newFile pA).1 ∧
    ((st.newFile pA).2.newFile pB).2 = (st.newFile pA).2 ∧
    (st.newFile pA).1.pathName = pA ∧
    (st.newFile pA).1.sourceLocale = st.project.sourceLocale ∧
    (st.newFile pA).2.file = some (st.newFile pA).1 := by
  simp [XliffFileType.newFile, h, XliffFile.mk']

/-- Witness for C5: creating the singleton at one path, then requesting a
different path, yields the object bound to the first path. -/
theorem xliff_newFile_idempotent_singleton_witness :
    (((XliffFileType.init sampleProject).newFile "en-US.xliff").2.newFile "other.xliff").1 =
      ((XliffFileType.init sampleProject).newFile "en-US.xliff").1 ∧
    ((XliffFileType.init sampleProject).newFile "en-US.xliff").1.pathName = "en-US.xliff" :=
  ⟨(xliff_newFile_idempotent_singleton (XliffFileType.init sampleProject)
      "en-US.xliff" "other.xliff" rfl).1,
   (xliff_newFile_idempotent_singleton (XliffFileType.init sampleProject)
      "en-US.xliff" "other.xliff" rfl).2.2.1⟩

/-- C9: `getResourceFile` returns the current singleton (absent before
any `newFile` call, and exactly the object `newFile` returned afterwards)
and has no side effect on the state. -/
theorem xliff_getResourceFile_pure_singleton :
    (∀ st : XliffFileType, (st.getResourceFile).2 = st) ∧
    (∀ st : XliffFileType, st.file = none → (st.getResourceFile).1 = none) ∧
    (∀ (st : XliffFileType) (q : String),
      ((st.newFile q).2.getResourceFile).1 = some (st.newFile q).1 ∧
      ((st.newFile q).2.getResourceFile).2 = (st.newFile q).2) ∧
    (∀ pr : LocProject, ((XliffFileType.init pr).getResourceFile).1 = none) := by
  refine ⟨fun st => rfl, fun st h => by simp [XliffFileType.getResourceFile, h], ?_, fun pr => rfl⟩
  intro st q
  cases hf : st.file with
  | none => simp [XliffFileType.newFile, XliffFileType.getResourceFile, hf]
  | some f => simp [XliffFileType.newFile, XliffFileType.getResourceFile, hf]

/-- Witness for C9 on a concrete state with no file yet. -/
theorem xliff_getResourceFile_pure_singleton_witness :
    ((XliffFileType.init sampleProject).getResourceFile).1 = none :=
  xliff_getResourceFile_pure_singleton.2.1 (XliffFileType.init sampleProject) rfl

/-- C6: `handles` returns true iff the normalized path equals the fixed
canonical name en-US.xliff; it holds on the canonical name and its
dot-segment variant, fails on other names, and never consults the
extensions list. -/
theorem xliff_handles_canonical_name_only :
    (∀ (st : XliffFileType) (pathName : String),
      st.handles pathName = true ↔ normalizePath pathName = "en-US.xliff") ∧
    (∀ (st : XliffFileType) (exts : List String) (pathName : String),
      XliffFileType.handles { st with extensions := exts } pathName = st.handles pathName) ∧
    sampleState.handles "en-US.xliff" = true ∧
    sampleState.handles "./en-US.xliff" = true ∧
    sampleState.handles "fr-FR.xliff" = false ∧
    sampleState.handles "en-US.xliff.bak" = false := by
  refine ⟨fun st pathName => ?_, fun st exts pathName => rfl, by decide, by decide, by decide, by decide⟩
  simp [XliffFileType.handles]

/-- Witness for C6 evaluating the recognition predicate at the canonical
name through the iff. -/
theorem xliff_handles_canonical_name_only_witness :
    sampleState.handles "en-US.xliff" = true :=
  (xliff_handles_canonical_name_only.1 sampleState "en-US.xliff").mpr (by decide)

theorem addedResources_tail_imp :
    addedResources [WriteEvent.persist, WriteEvent.importerCall xcodebuildArgs] = [] := rfl

theorem addedResources_tail_persist :
    addedResources [WriteEvent.persist] = [] := rfl

theorem importerInvocations_tail_imp :
    importerInvocations [WriteEvent.persist, WriteEvent.importerCall xcodebuildArgs] =
      [xcodebuildArgs] := rfl

theorem importerInvocations_tail_persist :
    importerInvocations [WriteEvent.persist] = [] := rfl

theorem persistCount_tail_imp :
    persistCount [WriteEvent.persist, WriteEvent.importerCall xcodebuildArgs] = 1 := rfl

theorem persistCount_tail_persist :
    persistCount [WriteEvent.persist] = 1 := rfl

/-- C1: when the singleton file exists, one call to `write` adds exactly
the records of the new set followed by the records of the pseudo set to
the file, each once per invocation, in set-iteration order; the stored
file becomes the persisted merge, whose underlying set extends the old
one by precisely those records in that order. -/
theorem xliff_write_merges_new_then_pseudo_once (st : XliffFileType) (f : XliffFile)
    (p : XliffFile → XliffFile) (i : List String → ProcStatus) (h : st.file = some f) :
    addedResources (st.write p i).2.1 = st.newres.getAll ++ st.pseudo.getAll ∧
    (st.write p i).1.file = some (p (st.mergedFile f)) ∧
    (st.mergedFile f).set.resources =
      f.set.resources ++ st.newres.getAll ++ st.pseudo.getAll := by
  rw [XliffFileType.write_some st f p i h]
  refine ⟨?_, ?_, mergedFile_resources st f⟩ <;> split <;>
    simp [addedResources_append, addedResources_map_add,
      addedResources_tail_imp, addedResources_tail_persist]

/-- Witness for C1 on a concrete state with one new and one pseudo
record: the add trace is exactly those two records in order. -/
theorem xliff_write_merges_new_then_pseudo_once_witness :
    addedResources (sampleState2.write dirtyPersist okImporter).2.1 =
      sampleState2.newres.getAll ++ sampleState2.pseudo.getAll :=
  (xliff_write_merges_new_then_pseudo_once sampleState2 sampleFile
    dirtyPersist okImporter rfl).1

/-- C2: the external importer is invoked by `write` exactly once when the
dirty flag of the underlying translation set is true immediately after
the persist step, and never when it is false, for every possible persist
behavior. -/
theorem xliff_write_importer_iff_dirty_after_persist (st : XliffFileType) (f : XliffFile)
    (p : XliffFile → XliffFile) (i : List String → ProcStatus) (h : st.file = some f) :
    importerInvocations (st.write p i).2.1 =
      (if ((p (st.mergedFile f)).getTranslationSet).isDirty then [xcodebuildArgs] else []) ∧
    ((importerInvocations (st.write p i).2.1).length = 1 ↔
      ((p (st.mergedFile f)).getTranslationSet).isDirty = true) ∧
    ((importerInvocations (st.write p i).2.1).length = 0 ↔
      ((p (st.mergedFile f)).getTranslationSet).isDirty = false) := by
  rw [XliffFileType.write_some st f p i h]
  by_cases hd : ((p (st.mergedFile f)).getTranslationSet).isDirty = true
  · simp [hd, importerInvocations_append, importerInvocations_map_add,
      importerInvocations_tail_imp]
  · simp [hd, importerInvocations_append, importerInvocations_map_add,
      importerInvocations_tail_persist, Bool.not_eq_true] at hd ⊢

/-- Witness for C2: with a persist that leaves the set dirty the importer
trace is the singleton xcodebuild call. -/
theorem xliff_write_importer_iff_dirty_after_persist_witness :
    importerInvocations (sampleState2.write dirtyPersist okImporter).2.1 =
      (if ((dirtyPersist (sampleState2.mergedFile sampleFile)).getTranslationSet).isDirty
       then [xcodebuildArgs] else []) :=
  (xliff_write_importer_iff_dirty_after_persist sampleState2 sampleFile
    dirtyPersist okImporter rfl).1

/-- C4: records that only ever entered the extracted set (via `addSet`)
are never written: the whole outcome of `write` apart from the pass-through
extracted field is invariant under any change of the extracted set, and
every record of the merged file comes from the old file content, the new
set, or the pseudo set. -/
theorem xliff_write_ignores_extracted_set :
    (∀ (st : XliffFileType) (p : XliffFile → XliffFile) (i : List String → ProcStatus)
       (ext : TranslationSet),
      (XliffFileType.write { st with extracted := ext } p i).1 =
        { (st.write p i).1 with extracted := ext } ∧
      (XliffFileType.write { st with extracted := ext } p i).2 = (st.write p i).2) ∧
    (∀ (st : XliffFileType) (f : XliffFile) (r : LocResource), st.file = some f →
      r ∈ (st.mergedFile f).set.resources →
      r ∈ f.set.resources ∨ r ∈ st.newres.getAll ∨ r ∈ st.pseudo.getAll) := by
  constructor
  · intro st p i ext
    obtain ⟨pr, ty, fls, exts, fl, nr, ps, ex⟩ := st
    cases fl with
    | none => exact ⟨rfl, rfl⟩
    | some f =>
      simp only [XliffFileType.write]
      have hm : XliffFileType.mergedFile ⟨pr, ty, fls, exts, some f, nr, ps, ext⟩ f =
          XliffFileType.mergedFile ⟨pr, ty, fls, exts, some f, nr, ps, ex⟩ f := rfl
      have hl : XliffFileType.mergeLog ⟨pr, ty, fls, exts, some f, nr, ps, ext⟩ f =
          XliffFileType.mergeLog ⟨pr, ty, fls, exts, some f, nr, ps, ex⟩ f := rfl
      have hi : ∀ q, XliffFileType.importLog ⟨pr, ty, fls, exts, some f, nr, ps, ext⟩ q =
          XliffFileType.importLog ⟨pr, ty, fls, exts, some f, nr, ps, ex⟩ q := fun _ => rfl
      rw [hm, hl, hi]
      by_cases hd : ((p (XliffFileType.mergedFile
          ⟨pr, ty, fls, exts, some f, nr, ps, ex⟩ f)).getTranslationSet).isDirty = true
      · rw [if_pos hd, if_pos hd]
        exact ⟨rfl, rfl⟩
      · rw [if_neg hd, if_neg hd]
        exact ⟨rfl, rfl⟩
  · intro st f r hfile hmem
    rw [mergedFile_resources st f] at hmem
    simp only [List.append_assoc, List.mem_append] at hmem
    tauto

/-- Witness for C4: the concrete record that only entered the extracted
set is absent from the merged file, whose members all come from the file,
the new set or the pseudo set. -/
theorem xliff_write_ignores_extracted_set_witness :
    sampleRes ∈ sampleFile.set.resources ∨ sampleRes ∈ sampleState2.newres.getAll ∨
      sampleRes ∈ sampleState2.pseudo.getAll :=
  xliff_write_ignores_extracted_set.2 sampleState2 sampleFile sampleRes rfl (by decide)

/-- C8: no pipeline operation shrinks or resets the three accumulation
sets: `write` leaves all three untouched, `addSet` only appends to the
extracted set, `newFile` and `getResourceFile` change no set. -/
theorem xliff_sets_never_shrink :
    (∀ (st : XliffFileType) (p : XliffFile → XliffFile) (i : List String → ProcStatus),
      (st.write p i).1.newres = st.newres ∧ (st.write p i).1.pseudo = st.pseudo ∧
      (st.write p i).1.extracted = st.extracted) ∧
    (∀ (st : XliffFileType) (s : TranslationSet),
      (st.addSet s).extracted.resources = st.extracted.resources ++ s.resources ∧
      (st.addSet s).newres = st.newres ∧ (st.addSet s).pseudo = st.pseudo) ∧
    (∀ (st : XliffFileType) (q : String),
      (st.newFile q).2.newres = st.newres ∧ (st.newFile q).2.pseudo = st.pseudo ∧
      (st.newFile q).2.extracted = st.extracted) ∧
    (∀ st : XliffFileType, (st.getResourceFile).2 = st) := by
  refine ⟨?_, ?_, ?_, fun st => rfl⟩
  · intro st p i
    cases hf : st.file with
    | none => rw [XliffFileType.write_none st p i hf]; exact ⟨rfl, rfl, rfl⟩
    | some f =>
      rw [XliffFileType.write_some st f p i hf]
      split <;> exact ⟨rfl, rfl, rfl⟩
  · intro st s
    exact ⟨rfl, rfl, rfl⟩
  · intro st q
    cases hf : st.file with
    | none => simp [XliffFileType.newFile, hf]
    | some f => simp [XliffFileType.newFile, hf]

/-- Witness for C8 on a concrete populated state and dirty persist: the
new set is untouched by `write`. -/
theorem xliff_sets_never_shrink_witness :
    (sampleState2.write dirtyPersist okImporter).1.newres = sampleState2.newres :=
  (xliff_sets_never_shrink.1 sampleState2 dirtyPersist okImporter).1

/-- C10: whenever `write` invokes the external importer, the argument
list is the fixed literal, for every plugin state, hence independent of
the path the singleton file was created with; the import-source path in
it is the constant dot-slash en.xliff. -/
theorem xliff_importer_args_fixed (st : XliffFileType)
    (p : XliffFile → XliffFile) (i : List String → ProcStatus) (a : List String)
    (h : WriteEvent.importerCall a ∈ (st.write p i).2.1) :
    a = ["-importLocalizations", "-localizationPath", "./en.xliff", "-project",
         "feelgood.xcodeproj"] := by
  cases hf : st.file with
  | none =>
    rw [XliffFileType.write_none st p i hf] at h
    simp at h
  | some f =>
    rw [XliffFileType.write_some st f p i hf] at h
    by_cases hd : ((p (st.mergedFile f)).getTranslationSet).isDirty = true
    · rw [if_pos hd] at h
      rw [List.mem_append] at h
      rcases h with h | h
      · rw [List.mem_map] at h
        obtain ⟨r, _, hr⟩ := h
        exact absurd hr (by simp)
      · rw [List.mem_cons, List.mem_singleton] at h
        rcases h with h | h
        · exact absurd h (by simp)
        · exact (WriteEvent.importerCall.inj h).trans rfl
    · rw [if_neg hd] at h
      rw [List.mem_append] at h
      rcases h with h | h
      · rw [List.mem_map] at h
        obtain ⟨r, _, hr⟩ := h
        exact absurd hr (by simp)
      · rw [List.mem_singleton] at h
        exact absurd h (by simp)

theorem mergeLog_no_error (st : XliffFileType) (f : XliffFile) :
    LogLevel.error ∉ (st.mergeLog f).map LogEntry.level := by
  simp [XliffFileType.mergeLog, List.mem_map]

theorem importLog_no_error (st : XliffFileType) (q : ProcStatus) :
    LogLevel.error ∉ (st.importLog q).map LogEntry.level := by
  rcases q with ⟨status, stdout, stderr⟩
  cases stdout <;> cases stderr <;> by_cases hs : status = 0 <;>
    simp [XliffFileType.importLog, hs]

/-- C7: a non-zero importer exit status never surfaces as an error from
`write`: the resulting state and effect trace are identical for every
importer behavior, the persist happens exactly once (no rollback or
retry), nothing is logged at error severity, and a failing status in the
dirty case produces exactly the warning message. -/
theorem xliff_write_importer_failure_warn_only (st : XliffFileType) (f : XliffFile)
    (p : XliffFile → XliffFile) (i j : List String → ProcStatus) (h : st.file = some f) :
    (st.write p i).1 = (st.write p j).1 ∧
    (st.write p i).2.1 = (st.write p j).2.1 ∧
    persistCount (st.write p i).2.1 = 1 ∧
    LogLevel.error ∉ ((st.write p i).2.2).map LogEntry.level ∧
    (((p (st.mergedFile f)).getTranslationSet).isDirty = true →
      (i xcodebuildArgs).status ≠ 0 →
      { level := LogLevel.warn, message := "Execution failed: " } ∈ (st.write p i).2.2) := by
  rw [XliffFileType.write_some st f p i h, XliffFileType.write_some st f p j h]
  by_cases hd : ((p (st.mergedFile f)).getTranslationSet).isDirty = true
  · rw [if_pos hd, if_pos hd]
    refine ⟨rfl, rfl, ?_, ?_, ?_⟩
    · rw [persistCount_append, persistCount_map_add, persistCount_tail_imp]
    · rw [List.map_append]
      simp only [List.mem_append, not_or]
      exact ⟨mergeLog_no_error st f, importLog_no_error st (i xcodebuildArgs)⟩
    · intro _ hstatus
      rw [List.mem_append]
      right
      simp [XliffFileType.importLog, hstatus]
  · rw [if_neg hd, if_neg hd]
    refine ⟨rfl, rfl, ?_, mergeLog_no_error st f, fun hdirty => (hd hdirty).elim⟩
    rw [persistCount_append, persistCount_map_add, persistCount_tail_persist]

/-- Witness for C7: a failing importer on a dirty persist leaves exactly
the warning in the log of the concrete run. -/
theorem xliff_write_importer_failure_warn_only_witness :
    { level := LogLevel.warn, message := "Execution failed: " } ∈
      (sampleState2.write dirtyPersist failImporter).2.2 :=
  (xliff_write_importer_failure_warn_only sampleState2 sampleFile dirtyPersist
    failImporter okImporter rfl).2.2.2.2 (by decide) (by decide)

/-- Witness for C10: in a concrete dirty run the importer is invoked, and
the theorem forces its argument list to be the fixed literal. -/
theorem xliff_importer_args_fixed_witness :
    WriteEvent.importerCall xcodebuildArgs ∈ (sampleState2.write dirtyPersist okImporter).2.1 ∧
    xcodebuildArgs = ["-importLocalizations", "-localizationPath", "./en.xliff", "-project",
      "feelgood.xcodeproj"] :=
  ⟨by decide,
   xliff_importer_args_fixed sampleState2 dirtyPersist okImporter xcodebuildArgs (by decide)⟩
